import Mathlib

/-
Shallow embedding of libsyspower (src/lib/core.c) for checking the
natural-language specification against the code.

Conventions used throughout:
  * C machine integers that stay small in practice are modelled as Nat or
    Int; where C division or remainder on possibly negative values occurs we
    use Int.tdiv and Int.tmod, which truncate toward zero like C.
  * Fallible system calls (open, read, write) are modelled by explicit
    environment parameters giving their outcome, and the functions return
    the C int result together with a trace of the externally visible
    effects (attribute writes, rebuild scans) the call performed.
  * errno values match the Linux ABI: ENOENT = 2, EINVAL = 22.
-/

namespace Syspower

/-- errno value ENOENT (2). -/
def ENOENT : Nat := 2

/-- errno value EINVAL (22). -/
def EINVAL : Nat := 22

/-- WAKEDEV_COUNT from core.c line 40: capacity of the wakeup cache array. -/
def WAKEDEV_COUNT : Nat := 128

/- ------------------------------------------------------------------
RTC alarm programming, core.c lines 116-154 (syspower_rtc_wakealarm).

The function reads the current RTC time, then performs

    rtc_tm.tm_sec += seconds;
    if (rtc_tm.tm_sec >= 60) { rtc_tm.tm_sec %= 60; rtc_tm.tm_min++; }
    if (rtc_tm.tm_min == 60) { rtc_tm.tm_min = 0; rtc_tm.tm_hour++; }
    if (rtc_tm.tm_hour == 24) rtc_tm.tm_hour = 0;

and programs the resulting time into the alarm register.  Only the
time computation is relevant to claim C2; the ioctl plumbing around it
is straight-line error propagation.
------------------------------------------------------------------ -/

/-- The three struct rtc_time fields the alarm computation touches. -/
structure RtcTime where
  tm_sec : Int
  tm_min : Int
  tm_hour : Int
deriving DecidableEq, Repr

/-- The alarm-time computation of syspower_rtc_wakealarm (core.c 129-139),
translated statement by statement.  tm_sec %= 60 is C truncating remainder,
hence Int.tmod. -/
def rtc_alarm_time (t : RtcTime) (seconds : Nat) : RtcTime :=
  let s1 : Int := t.tm_sec + (seconds : Int)
  let s2 : Int := if 60 ≤ s1 then Int.tmod s1 60 else s1
  let m1 : Int := if 60 ≤ s1 then t.tm_min + 1 else t.tm_min
  let m2 : Int := if m1 = 60 then 0 else m1
  let h1 : Int := if m1 = 60 then t.tm_hour + 1 else t.tm_hour
  let h2 : Int := if h1 = 24 then 0 else h1
  ⟨s2, m2, h2⟩

/-- Seconds since midnight of an RtcTime value. -/
def secondsOfDay (t : RtcTime) : Int :=
  t.tm_hour * 3600 + t.tm_min * 60 + t.tm_sec

/-- The behaviour the spec describes for the alarm computation: current time
plus seconds_from_now, carried through seconds, minutes and hours, with the
hour wrapping at 24 and no day carry, i.e. addition modulo 86400 seconds. -/
def spec_alarm_time (t : RtcTime) (seconds : Nat) : RtcTime :=
  let tot : Int := (secondsOfDay t + (seconds : Int)) % 86400
  ⟨tot % 60, (tot / 60) % 60, tot / 3600⟩

/- ------------------------------------------------------------------
Attribute I/O primitives, core.c lines 279-324.
------------------------------------------------------------------ -/

/-- Outcome of a WRITE_RETRY call after its EINTR loop has finished:
either a byte count (the non-negative return of write) or a failure with
the errno it left behind. -/
inductive SysWrite where
  | ok (count : Nat)
  | err (errno : Nat)
deriving DecidableEq, Repr

/-- Result of __write_attribute (core.c 304-324) once the attribute file
opened: the code runs WRITE_RETRY(fd, value, strlen(value) + 1) and checks
only ret < 0, returning -errno then and 0 for every non-negative count.
The requested length strlen(value) + 1 is computed but never compared with
the count actually written. -/
def write_attribute_m (value : String) (w : SysWrite) : Int :=
  let _reqLen : Nat := value.length + 1
  match w with
  | SysWrite.err e => -(e : Int)
  | SysWrite.ok _count => 0

/-- Bytes stored in the caller buffer by __read_attribute (core.c 279-302)
after a successful read that returned the given bytes: the code stores a
null terminator at value[ret - 1], so the semantic value is everything
before that position.  (The bytes of a sysfs attribute contain no interior
null, so the C string the caller sees is exactly this list.) -/
def read_attribute_store (bytes : List Char) : List Char :=
  bytes.take (bytes.length - 1)

/-- Index at which __read_attribute stores the null terminator, computed as
the C int expression ret - 1 where ret is the count the read returned. -/
def read_attribute_nulIndex (bytes : List Char) : Int :=
  (bytes.length : Int) - 1

/-- The post-processing the spec describes for a successful read: strip a
trailing newline only when one is present, leave the value unchanged
otherwise. -/
def spec_strip_newline (bytes : List Char) : List Char :=
  if bytes.getLast? = some '\n' then bytes.dropLast else bytes

/- ------------------------------------------------------------------
Wakeup-source cache, core.c lines 40-55 and 359-455.

The cache is the global array
    struct wakeup_source *wakeup_cache[WAKEDEV_COUNT];
rebuilt by __wakeup_cache_update: memset to all-NULL, then a recursive
scan of /sys/devices that appends one entry per admitted device in scan
order (dropping admissions beyond WAKEDEV_COUNT).  We model the array by
the list of its populated prefix (the entries before the first NULL slot)
and the scan by an environment function giving, for each rebuild ordinal,
the list of devices that scan would admit — this lets a claim speak about
the underlying tree changing between scans.
------------------------------------------------------------------ -/

/-- One cache entry (struct wakeup_source, core.c 42-45): device basename
and canonical device path. -/
structure WakeupSource where
  name : String
  devpath : String
deriving DecidableEq, Repr

/-- Observable cache state: the populated prefix of wakeup_cache, plus the
number of rebuild scans performed so far (an instrumentation counter, not
program state, used to settle the claims about when scans happen). -/
structure CacheState where
  cache : List WakeupSource
  scans : Nat
deriving DecidableEq, Repr

/-- __wakeup_cache_update (core.c 384-390): clear the table and rerun the
scanner; the scan admits the devices the tree environment lists for the
current scan ordinal, and insertions beyond WAKEDEV_COUNT are dropped
(capacity check in __syspower_new_device, core.c 372). -/
def wakeup_cache_update (tree : Nat → List WakeupSource) (s : CacheState) : CacheState :=
  ⟨(tree s.scans).take WAKEDEV_COUNT, s.scans + 1⟩

/-- __wakeup_source_lookup (core.c 392-409): if the first slot is NULL the
cache is rebuilt; then the populated prefix is scanned linearly for an
exact strcmp match, first match wins.  Returns the entry found (if any)
together with the state after the call. -/
def wakeup_source_lookup (tree : Nat → List WakeupSource) (s : CacheState)
    (name : String) : Option WakeupSource × CacheState :=
  let s2 := if s.cache.isEmpty then wakeup_cache_update tree s else s
  (s2.cache.find? (fun ws => ws.name == name), s2)

/-- C member access p->name for p a possibly NULL struct wakeup_source
pointer, as performed by syspower_wakeup_get (core.c 419).  name is the
first member of the struct (offset 0) and an array member, so the access
is pure address arithmetic with no load through the pointer: on a NULL
entry it evaluates to the null pointer, which is what the enumeration
loops in tools/syspowerwakesrc.c rely on as the end marker. -/
def memberName : Option WakeupSource → Option String
  | some ws => some ws.name
  | none => none

/-- syspower_wakeup_get (core.c 411-420): NULL for an index at or beyond
WAKEDEV_COUNT; otherwise rebuild if the first slot is NULL, then return
wakeup_cache[index]->name. -/
def syspower_wakeup_get (tree : Nat → List WakeupSource) (s : CacheState)
    (index : Nat) : Option String × CacheState :=
  if WAKEDEV_COUNT ≤ index then (none, s)
  else
    let s2 := if s.cache.isEmpty then wakeup_cache_update tree s else s
    (memberName (s2.cache.get? index), s2)

/-- syspower_wakeup_enable (core.c 422-430): look the name up; on a miss
return -ENOENT, otherwise write "enabled" to <devpath>/power/wakeup.  The
write environment gives the result __write_attribute would produce; the
third component of the result is the trace of attribute writes attempted
(path paired with the value written). -/
def syspower_wakeup_enable (tree : Nat → List WakeupSource)
    (wenv : String → String → Int) (s : CacheState) (name : String) :
    Int × CacheState × List (String × String) :=
  match wakeup_source_lookup tree s name with
  | (none, s2) => (-(ENOENT : Int), s2, [])
  | (some ws, s2) =>
      (wenv (ws.devpath ++ "/power/wakeup") "enabled", s2,
        [(ws.devpath ++ "/power/wakeup", "enabled")])

/-- syspower_wakeup_disable (core.c 432-440): same as enable with the
value "disabled". -/
def syspower_wakeup_disable (tree : Nat → List WakeupSource)
    (wenv : String → String → Int) (s : CacheState) (name : String) :
    Int × CacheState × List (String × String) :=
  match wakeup_source_lookup tree s name with
  | (none, s2) => (-(ENOENT : Int), s2, [])
  | (some ws, s2) =>
      (wenv (ws.devpath ++ "/power/wakeup") "disabled", s2,
        [(ws.devpath ++ "/power/wakeup", "disabled")])

/-- C conversion of an int to _Bool: nonzero becomes true. -/
def intToBool (i : Int) : Bool := i != 0

/-- syspower_wakeup_enabled (core.c 442-455), declared bool: on a lookup
miss it executes return -ENOENT, an int converted to _Bool; on a hit it
reads <devpath>/power/wakeup into a buffer seeded "" (ignoring the read
result) and compares the first strlen("enabled") characters with
"enabled".  The read environment gives the buffer contents after the
read. -/
def syspower_wakeup_enabled (tree : Nat → List WakeupSource)
    (renv : String → String) (s : CacheState) (name : String) :
    Bool × CacheState :=
  match wakeup_source_lookup tree s name with
  | (none, s2) => (intToBool (-(ENOENT : Int)), s2)
  | (some ws, s2) => ((renv (ws.devpath ++ "/power/wakeup")).startsWith "enabled", s2)

/-- The set of cache-array indices the free-slot search loop of
__syspower_new_device (core.c 370, after the wakeup filter admitted the
device) reads: the loop while (syspower.wakeup_cache[i]) i++ reads index
0 first, and reads index i+1 whenever the slot it read at index i was
occupied.  slots gives the contents of memory at each index the loop may
touch (indices at and beyond WAKEDEV_COUNT are outside the array). -/
inductive freeSlotProbes (slots : Nat → Option WakeupSource) : Nat → Prop where
  | zero : freeSlotProbes slots 0
  | succ (i : Nat) : freeSlotProbes slots i → (slots i).isSome = true →
      freeSlotProbes slots (i + 1)

/- ------------------------------------------------------------------
Sleep / autosleep control, core.c lines 57-62 and 156-209.
------------------------------------------------------------------ -/

/-- SYSPOWER_SLEEP_TYPE_MAX from include/syspower.h: the enum values are
FREEZE = 0, STANDBY = 1, MEM = 2, HIBERNATE = 3, MAX = 4. -/
def SYSPOWER_SLEEP_TYPE_MAX : Nat := 4

/-- The sleep_state token table (core.c 57-62), indexed by sleep type; the
out-of-range case is unreachable in the functions below because both guard
with the SYSPOWER_SLEEP_TYPE_MAX check before indexing. -/
def sleep_state : Nat → String
  | 0 => "freeze\n"
  | 1 => "standby\n"
  | 2 => "mem\n"
  | 3 => "disk\n"
  | _ => ""

/-- Outcomes of the system calls a control-file write path performs:
the result of __open_once (0 or a negative value), the return of
WRITE_RETRY, and the errno left behind by a failed or short write. -/
structure WriteEnv where
  openRet : Int
  writeRet : Int
  errno : Nat
deriving DecidableEq, Repr

/-- syspower_autosleep_enable (core.c 156-173): reject type values at or
beyond SYSPOWER_SLEEP_TYPE_MAX with -EINVAL before opening or writing
anything; otherwise open the autosleep file once and write the token plus
its null terminator, demanding the count written equal the length exactly.
The second component is the trace of writes attempted on the control file
(token paired with requested length). -/
def syspower_autosleep_enable (env : WriteEnv) (t : Nat) : Int × List (String × Nat) :=
  if SYSPOWER_SLEEP_TYPE_MAX ≤ t then (-(EINVAL : Int), [])
  else
    let tok := sleep_state t
    let len := tok.length + 1
    if env.openRet ≠ 0 then (env.openRet, [])
    else if env.writeRet ≠ (len : Int) then (-(env.errno : Int), [(tok, len)])
    else (0, [(tok, len)])

/-- syspower_suspend (core.c 191-209): identical structure to
syspower_autosleep_enable but targeting /sys/power/state. -/
def syspower_suspend (env : WriteEnv) (t : Nat) : Int × List (String × Nat) :=
  if SYSPOWER_SLEEP_TYPE_MAX ≤ t then (-(EINVAL : Int), [])
  else
    let tok := sleep_state t
    let len := tok.length + 1
    if env.openRet ≠ 0 then (env.openRet, [])
    else if env.writeRet ≠ (len : Int) then (-(env.errno : Int), [(tok, len)])
    else (0, [(tok, len)])

/- ------------------------------------------------------------------
Power-supply numeric queries, core.c lines 525-595.
------------------------------------------------------------------ -/

/-- Digit-accumulating loop of atoi: consume a decimal digit run,
stopping at the first non-digit. -/
def atoiDigits : List Char → Nat → Nat
  | [], acc => acc
  | c :: cs, acc =>
      if c.isDigit then atoiDigits cs (acc * 10 + (c.toNat - 48)) else acc

/-- C atoi on the attribute string: skip leading whitespace, accept one
optional sign, then parse the leading digit run (0 when none). -/
def atoi (s : String) : Int :=
  let cs := s.data.dropWhile
    (fun c => c == ' ' || c == '\t' || c == '\n' || c == '\r')
  match cs with
  | '-' :: rest => -((atoiDigits rest 0 : Nat) : Int)
  | '+' :: rest => ((atoiDigits rest 0 : Nat) : Int)
  | _ => ((atoiDigits cs 0 : Nat) : Int)

/-- The fixed power-supply class directory (core.c 37). -/
def path_supply : String := "/sys/class/power_supply"

/-- Directory the supply functions sprintf for a given supply name. -/
def supplyPath (supplyname : String) : String :=
  path_supply ++ "/" ++ supplyname

/-- Valid selectors of syspower_supply_current: the three cases of the
switch in core.c 537-549.  (The enum itself is declared in a header not
present under src; only the valid selectors matter to the claims.) -/
inductive CurrentSel where
  | max
  | avg
  | now
deriving DecidableEq, Repr

/-- Attribute file read for each current selector. -/
def currentAttr : CurrentSel → String
  | CurrentSel.max => "current_max"
  | CurrentSel.avg => "current_avg"
  | CurrentSel.now => "current_now"

/-- Valid selectors of syspower_supply_voltage (switch in core.c 572-587). -/
inductive VoltageSel where
  | avg
  | max
  | min
  | now
deriving DecidableEq, Repr

/-- Attribute file read for each voltage selector. -/
def voltageAttr : VoltageSel → String
  | VoltageSel.avg => "voltage_avg"
  | VoltageSel.max => "voltage_max"
  | VoltageSel.min => "voltage_min"
  | VoltageSel.now => "voltage_now"

/-- Outcome of a __read_attribute call as its callers see it: failure with
the positive errno it returns negated, or success together with the text
left in the caller buffer. -/
def ReadEnv : Type := String → String → Except Nat String

/-- syspower_supply_current (core.c 525-558) on a valid selector: seed the
attribute buffer with "0", read the selected attribute of the supply
directory; if the read returns nonzero, return that value unchanged
(ret is -errno); otherwise parse with atoi, divide by 1000 with C
truncating division, and normalize the sign to non-negative. -/
def syspower_supply_current (renv : ReadEnv) (supplyname : String)
    (sel : CurrentSel) : Int :=
  let _attrSeed : String := "0"
  match renv (supplyPath supplyname) (currentAttr sel) with
  | Except.error e => -(e : Int)
  | Except.ok attr =>
      let mA := Int.tdiv (atoi attr) 1000
      if mA < 0 then -mA else mA

/-- syspower_supply_voltage (core.c 560-595) on a valid selector: same
shape as syspower_supply_current, without the sign normalization. -/
def syspower_supply_voltage (renv : ReadEnv) (supplyname : String)
    (sel : VoltageSel) : Int :=
  let _attrSeed : String := "0"
  match renv (supplyPath supplyname) (voltageAttr sel) with
  | Except.error e => -(e : Int)
  | Except.ok attr => Int.tdiv (atoi attr) 1000

/- ==================================================================
Theorems
================================================================== -/

/-- C2: the claim is that syspower_rtc_wakealarm programs current time plus
seconds_from_now for every seconds_from_now, with carry propagated through
seconds, minutes and hours.  The code carries at most one minute however
large the seconds overflow is: at 00:00:00 with seconds_from_now = 120 it
programs 00:01:00, while now + 120 s is 00:02:00.  (The boundary example
cited by the claim, 23:59:59 + 2 s = 00:00:01 with no day carry, does hold,
which is why the single-carry slip stays hidden for small arguments.) -/
theorem rtc_wakealarm_wrong_carry_at_120s :
    rtc_alarm_time ⟨0, 0, 0⟩ 120 = ⟨0, 1, 0⟩ ∧
    spec_alarm_time ⟨0, 0, 0⟩ 120 = ⟨0, 2, 0⟩ ∧
    rtc_alarm_time ⟨0, 0, 0⟩ 120 ≠ spec_alarm_time ⟨0, 0, 0⟩ 120 ∧
    rtc_alarm_time ⟨59, 59, 23⟩ 2 = ⟨1, 0, 0⟩ ∧
    spec_alarm_time ⟨59, 59, 23⟩ 2 = ⟨1, 0, 0⟩ := by
  decide

/-- C3 counterexample: a write syscall that reports 3 bytes written when
strlen("enabled") + 1 = 8 bytes were requested is a mismatch, yet
__write_attribute reports success (returns 0), refuting the claim that
success is reported only when the count equals the requested length and
that every mismatch is reported as an error. -/
theorem write_attribute_partial_success_cex :
    write_attribute_m "enabled" (SysWrite.ok 3) = 0 ∧ (3 : Nat) ≠ "enabled".length + 1 := by
  decide

/-- C3 amended: __write_attribute reports success (0) whenever the write
syscall returns a non-negative byte count, including a count smaller than
the requested length; only a negative syscall return is reported, as the
error -errno derived from the OS error code, and neither case is
retried. -/
theorem write_attribute_success_iff_syscall_ok (value : String) (n e : Nat) :
    write_attribute_m value (SysWrite.ok n) = 0 ∧
    write_attribute_m value (SysWrite.err e) = -(e : Int) :=
  ⟨rfl, rfl⟩

/-- C5: the claim is that __read_attribute strips a trailing newline only
when present and always stores the null terminator inside the caller
buffer.  The code stores the terminator at value[ret - 1] unconditionally:
for a successful zero-byte read the store lands at index -1, outside the
buffer, and a two-byte value "ab" without a trailing newline comes back
truncated to "a" instead of unchanged.  The common case of a value with a
trailing newline is handled as the claim describes. -/
theorem read_attribute_strip_and_underflow_bug :
    read_attribute_nulIndex [] = -1 ∧
    ¬ 0 ≤ read_attribute_nulIndex [] ∧
    read_attribute_store ['a', 'b'] = ['a'] ∧
    spec_strip_newline ['a', 'b'] = ['a', 'b'] ∧
    read_attribute_store ['a', 'b'] ≠ spec_strip_newline ['a', 'b'] ∧
    read_attribute_store ['o', 'n', '\n'] = spec_strip_newline ['o', 'n', '\n'] := by
  decide

/-- C4 counterexample: with the current_now read failing with errno ENOENT,
syspower_supply_current returns the negative error code -2, not the benign
0 the claim says the caller receives. -/
theorem supply_current_error_not_zero_cex :
    syspower_supply_current (fun _ _ => Except.error 2) "bat0" CurrentSel.now = -2 ∧
    (-2 : Int) ≠ 0 :=
  ⟨rfl, by decide⟩

/-- C4 amended: when the underlying attribute read fails,
syspower_supply_current and syspower_supply_voltage propagate the error:
they return the negative error code from the read, and the "0" seed of the
attribute buffer never reaches the caller on the failure path. -/
theorem supply_current_voltage_propagate_read_error (renv : ReadEnv)
    (supplyname : String) (csel : CurrentSel) (vsel : VoltageSel) (e1 e2 : Nat)
    (hc : renv (supplyPath supplyname) (currentAttr csel) = Except.error e1)
    (hv : renv (supplyPath supplyname) (voltageAttr vsel) = Except.error e2) :
    syspower_supply_current renv supplyname csel = -(e1 : Int) ∧
    syspower_supply_voltage renv supplyname vsel = -(e2 : Int) := by
  simp [syspower_supply_current, syspower_supply_voltage, hc, hv]

/-- C4 amended, witness: every read of supply bat0 failing with errno 13
makes both queries return -13. -/
theorem supply_current_voltage_propagate_read_error_witness :
    syspower_supply_current (fun _ _ => Except.error 13) "bat0" CurrentSel.avg = -13 ∧
    syspower_supply_voltage (fun _ _ => Except.error 13) "bat0" VoltageSel.min = -13 :=
  supply_current_voltage_propagate_read_error (fun _ _ => Except.error 13) "bat0"
    CurrentSel.avg VoltageSel.min 13 13 rfl rfl

/-- C8: for every sleep-type value at or beyond SYSPOWER_SLEEP_TYPE_MAX,
syspower_autosleep_enable and syspower_suspend return -EINVAL and their
write trace is empty: the control file is not opened or written, whatever
the outcomes of the system calls would have been. -/
theorem sleep_type_out_of_range_einval (env : WriteEnv) (t : Nat)
    (h : SYSPOWER_SLEEP_TYPE_MAX ≤ t) :
    syspower_autosleep_enable env t = (-(EINVAL : Int), []) ∧
    syspower_suspend env t = (-(EINVAL : Int), []) := by
  simp [syspower_autosleep_enable, syspower_suspend, h]

/-- C8 witness: the first out-of-range value, t = SYSPOWER_SLEEP_TYPE_MAX
= 4, is rejected with -EINVAL and no write. -/
theorem sleep_type_out_of_range_einval_witness :
    syspower_autosleep_enable ⟨0, 8, 0⟩ 4 = (-(EINVAL : Int), []) ∧
    syspower_suspend ⟨0, 8, 0⟩ 4 = (-(EINVAL : Int), []) :=
  sleep_type_out_of_range_einval ⟨0, 8, 0⟩ 4 (by decide)

/-- C1: after a cache rebuild over a device tree whose scan admits the
given list of devices, enumeration with syspower_wakeup_get returns the
end marker NULL at every index at or beyond the number of admitted
devices, below or above the WAKEDEV_COUNT capacity bound alike; the only
slot inspected is the in-bounds slot at the requested index, whose NULL
entry yields the NULL return through the offset-zero member access. -/
theorem wakeup_get_end_after_admitted (admitted : List WakeupSource) (k index : Nat)
    (h : admitted.length ≤ index) :
    (syspower_wakeup_get (fun _ => admitted)
      (wakeup_cache_update (fun _ => admitted) ⟨[], k⟩) index).1 = none := by
  have hlen : (admitted.take WAKEDEV_COUNT).length ≤ index := by
    rw [List.length_take]
    exact le_trans (min_le_right _ _) h
  have hget : (admitted.take WAKEDEV_COUNT)[index]? = none :=
    List.getElem?_eq_none hlen
  by_cases hcap : WAKEDEV_COUNT ≤ index
  · simp [syspower_wakeup_get, hcap]
  · by_cases hemp : (admitted.take WAKEDEV_COUNT).isEmpty
    · simp [syspower_wakeup_get, wakeup_cache_update, hcap, hemp, hget, memberName]
    · simp [syspower_wakeup_get, wakeup_cache_update, hcap, hemp, hget, memberName]

/-- C1 witness: one admitted device, enumeration at index 1 reports the
end marker. -/
theorem wakeup_get_end_after_admitted_witness :
    (syspower_wakeup_get (fun _ => [⟨"eth0", "/sys/devices/platform/eth0"⟩])
      (wakeup_cache_update (fun _ => [⟨"eth0", "/sys/devices/platform/eth0"⟩]) ⟨[], 0⟩)
      1).1 = none :=
  wakeup_get_end_after_admitted [⟨"eth0", "/sys/devices/platform/eth0"⟩] 0 1 (by decide)

/-- C6 counterexample: over a device tree whose scan admits no device, two
successive lookups of the same name from an unpopulated cache trigger two
rebuild scans, not the single scan the claim allows regardless of whether
the first scan admitted any device. -/
theorem lookup_rescans_when_scan_admits_none_cex :
    ((wakeup_source_lookup (fun _ => [])
        ((wakeup_source_lookup (fun _ => []) ⟨[], 0⟩ "eth0").2) "eth0").2).scans = 2 ∧
    (2 : Nat) ≠ 1 :=
  ⟨rfl, by decide⟩

/-- C6 amended: the first lookup on an unpopulated cache triggers exactly
one rebuild scan; a subsequent lookup (of any name, whatever the tree now
contains) triggers no further scan provided that first scan admitted at
least one device.  If the scan admitted none the cache stays unpopulated
and each later lookup triggers another scan (see the counterexample). -/
theorem lookup_single_scan_when_scan_admits_some (tree : Nat → List WakeupSource)
    (s0 : CacheState) (n1 n2 : String)
    (h0 : s0.cache = []) (h1 : tree s0.scans ≠ []) :
    ((wakeup_source_lookup tree s0 n1).2).scans = s0.scans + 1 ∧
    ((wakeup_source_lookup tree ((wakeup_source_lookup tree s0 n1).2) n2).2).scans
      = s0.scans + 1 := by
  have hs1 : (wakeup_source_lookup tree s0 n1).2
      = ⟨(tree s0.scans).take WAKEDEV_COUNT, s0.scans + 1⟩ := by
    simp [wakeup_source_lookup, wakeup_cache_update, h0]
  have hne : (tree s0.scans).take WAKEDEV_COUNT ≠ [] := by
    intro hnil
    rcases List.take_eq_nil_iff.mp hnil with h128 | htree
    · exact absurd h128 (by decide)
    · exact h1 htree
  refine ⟨by rw [hs1], ?_⟩
  rw [hs1]
  simp [wakeup_source_lookup, hne]

/-- C6 amended, witness: a scan admitting one device is run once by the
first lookup and not again by a second lookup of a different name. -/
theorem lookup_single_scan_when_scan_admits_some_witness :
    ((wakeup_source_lookup (fun _ => [⟨"eth0", "/sys/devices/platform/eth0"⟩])
        ⟨[], 0⟩ "eth0").2).scans = 0 + 1 ∧
    ((wakeup_source_lookup (fun _ => [⟨"eth0", "/sys/devices/platform/eth0"⟩])
        ((wakeup_source_lookup (fun _ => [⟨"eth0", "/sys/devices/platform/eth0"⟩])
          ⟨[], 0⟩ "eth0").2) "wlan0").2).scans = 0 + 1 :=
  lookup_single_scan_when_scan_admits_some
    (fun _ => [⟨"eth0", "/sys/devices/platform/eth0"⟩]) ⟨[], 0⟩ "eth0" "wlan0"
    rfl (by decide)

/-- C7: with a populated cache not containing the looked-up name,
syspower_wakeup_enable and syspower_wakeup_disable return -ENOENT, leave
the cache state unchanged (in particular trigger no rebuild scan), and
their attribute-write trace is empty: no power/wakeup file is opened or
written. -/
theorem wakeup_set_absent_enoent_no_write (tree : Nat → List WakeupSource)
    (wenv : String → String → Int) (s : CacheState) (name : String)
    (hpop : s.cache ≠ []) (habs : ∀ ws ∈ s.cache, ws.name ≠ name) :
    syspower_wakeup_enable tree wenv s name = (-(ENOENT : Int), s, []) ∧
    syspower_wakeup_disable tree wenv s name = (-(ENOENT : Int), s, []) := by
  have hfind : s.cache.find? (fun ws => ws.name == name) = none :=
    List.find?_eq_none.mpr (fun x hx => by simpa using habs x hx)
  have hlook : wakeup_source_lookup tree s name = (none, s) := by
    simp [wakeup_source_lookup, hpop, hfind]
  constructor
  · simp [syspower_wakeup_enable, hlook]
  · simp [syspower_wakeup_disable, hlook]

/-- C7 witness: cache populated with eth0 only; enabling or disabling
wlan0 reports -ENOENT with no write and no state change. -/
theorem wakeup_set_absent_enoent_no_write_witness :
    syspower_wakeup_enable (fun _ => []) (fun _ _ => 0)
        ⟨[⟨"eth0", "/sys/devices/platform/eth0"⟩], 1⟩ "wlan0"
      = (-(ENOENT : Int), ⟨[⟨"eth0", "/sys/devices/platform/eth0"⟩], 1⟩, []) ∧
    syspower_wakeup_disable (fun _ => []) (fun _ _ => 0)
        ⟨[⟨"eth0", "/sys/devices/platform/eth0"⟩], 1⟩ "wlan0"
      = (-(ENOENT : Int), ⟨[⟨"eth0", "/sys/devices/platform/eth0"⟩], 1⟩, []) :=
  wakeup_set_absent_enoent_no_write (fun _ => []) (fun _ _ => 0)
    ⟨[⟨"eth0", "/sys/devices/platform/eth0"⟩], 1⟩ "wlan0" (by decide) (by decide)

/-- C9: with a populated cache not containing the looked-up name, the
bool-declared syspower_wakeup_enabled executes return -ENOENT; the C
conversion of the nonzero int -2 to _Bool yields true, so an unknown or
stale name reports as wakeup-enabled. -/
theorem wakeup_enabled_absent_returns_true (tree : Nat → List WakeupSource)
    (renv : String → String) (s : CacheState) (name : String)
    (hpop : s.cache ≠ []) (habs : ∀ ws ∈ s.cache, ws.name ≠ name) :
    (syspower_wakeup_enabled tree renv s name).1 = intToBool (-(ENOENT : Int)) ∧
    intToBool (-(ENOENT : Int)) = true := by
  have hfind : s.cache.find? (fun ws => ws.name == name) = none :=
    List.find?_eq_none.mpr (fun x hx => by simpa using habs x hx)
  have hlook : wakeup_source_lookup tree s name = (none, s) := by
    simp [wakeup_source_lookup, hpop, hfind]
  exact ⟨by simp [syspower_wakeup_enabled, hlook], by decide⟩

/-- C9 witness: cache populated with eth0 only; querying wlan0 yields
true. -/
theorem wakeup_enabled_absent_returns_true_witness :
    (syspower_wakeup_enabled (fun _ => []) (fun _ => "disabled")
        ⟨[⟨"eth0", "/sys/devices/platform/eth0"⟩], 1⟩ "wlan0").1
      = intToBool (-(ENOENT : Int)) ∧
    intToBool (-(ENOENT : Int)) = true :=
  wakeup_enabled_absent_returns_true (fun _ => []) (fun _ => "disabled")
    ⟨[⟨"eth0", "/sys/devices/platform/eth0"⟩], 1⟩ "wlan0" (by decide) (by decide)

/-- C10: when every one of the WAKEDEV_COUNT = 128 cache slots is occupied
and one more device passes the admission filter, the free-slot search loop
of __syspower_new_device reads the cache array at index 128, which is not
a valid index (the valid indices are 0..127): the out-of-bounds read
happens before the capacity check can drop the entry. -/
theorem new_device_full_cache_reads_index_128 (slots : Nat → Option WakeupSource)
    (hfull : ∀ i, i < WAKEDEV_COUNT → (slots i).isSome = true) :
    freeSlotProbes slots 128 ∧ ¬ 128 < WAKEDEV_COUNT := by
  have key : ∀ n, n ≤ WAKEDEV_COUNT → freeSlotProbes slots n := by
    intro n
    induction n with
    | zero => exact fun _ => freeSlotProbes.zero
    | succ m ih =>
        intro hm
        exact freeSlotProbes.succ m (ih (Nat.le_of_succ_le hm))
          (hfull m (Nat.lt_of_succ_le hm))
  exact ⟨key 128 (by decide), by decide⟩

/-- C10 witness: a concrete fully occupied cache makes the search loop
read index 128. -/
theorem new_device_full_cache_reads_index_128_witness :
    freeSlotProbes
      (fun i => if i < 128 then some ⟨"dev", "/sys/devices/platform/dev"⟩ else none)
      128 ∧ ¬ 128 < WAKEDEV_COUNT :=
  new_device_full_cache_reads_index_128
    (fun i => if i < 128 then some ⟨"dev", "/sys/devices/platform/dev"⟩ else none)
    (by decide)

end Syspower
